import Mathlib

/-!
Verification of the signing-plugin interface contract of the
signed-video-framework repository.

The repository sources contain the interface header
src/lib/src/includes/signed_video_interfaces.h, which declares the data
model (sign_algo_t, signature_info_t) and the plugin entry points
(sv_interface_setup, sv_interface_sign_hash, sv_interface_get_signature,
sv_interface_teardown).  The entry points are declarations of a plugin
contract; no plugin implementation ships in the sources, so the dynamic
behaviour of the provider is modelled here from the specification of that
contract, while the data model, the enumeration values and the parameter
lists of every entry point are embedded directly from the header.

Byte buffers are modelled as lists of naturals (each entry one byte) and
the process-global plugin state is threaded explicitly.
-/

namespace SignedVideo

/-- The sign_algo_t enumeration of signed_video_interfaces.h:
SIGN_ALGO_RSA = 0, SIGN_ALGO_ECDSA = 1, and the count sentinel
SIGN_ALGO_NUM. -/
inductive sign_algo_t where
  | SIGN_ALGO_RSA
  | SIGN_ALGO_ECDSA
  | SIGN_ALGO_NUM
deriving DecidableEq, Repr

/-- The numeric value each enumerator of sign_algo_t has in the header. -/
def sign_algo_code : sign_algo_t → Nat
  | .SIGN_ALGO_RSA => 0
  | .SIGN_ALGO_ECDSA => 1
  | .SIGN_ALGO_NUM => 2

/-- Modelled from the spec: SignedVideoReturnCode is declared in
signed_video_common.h, which is absent from the sources; the spec lists OK
and a closed set of failure kinds (invalid argument, unsupported
algorithm, key error, resource exhaustion). -/
inductive SignedVideoReturnCode where
  | SV_OK
  | SV_INVALID_PARAMETER
  | SV_NOT_SUPPORTED
  | SV_KEY_ERROR
  | SV_MEMORY
deriving DecidableEq, Repr

/-- Modelled from the spec: HASH_DIGEST_SIZE is defined outside the
shipped sources; the header fixes the digest to SHA-256 and the spec gives
its length, 32 bytes. -/
def HASH_DIGEST_SIZE : Nat := 32

/-- The digest length expected for an algorithm.  Per the header note the
algorithms are currently fixed to SHA-256, so the length is the single
constant HASH_DIGEST_SIZE for every enumerator. -/
def expected_digest_size (_a : sign_algo_t) : Nat := HASH_DIGEST_SIZE

/-- The signature_info_t record of signed_video_interfaces.h.  Pointer
fields become byte lists; the representation invariant of the embedding is
that each size field equals the length of its buffer. -/
structure signature_info_t where
  hash : List Nat
  hash_size : Nat
  algo : sign_algo_t
  private_key : List Nat
  private_key_size : Nat
  public_key : List Nat
  public_key_size : Nat
  signature : List Nat
  signature_size : Nat
  max_signature_size : Nat
deriving DecidableEq, Repr

/-- Modelled from the spec: the plugin entry points take no handle, so the
provider keeps process-global state.  It records whether setup ran and the
outstanding request, as remaining polling latency paired with the
completed signature bytes. -/
structure ProviderState where
  configured : Bool
  request : Option (Nat × List Nat)
deriving DecidableEq, Repr

/-- The provider state of a process in which no session was ever set up. -/
def initial_state : ProviderState :=
  { configured := false, request := none }

/-- Modelled from the spec: the cryptographic primitives are external to
the repository, so signing is modelled as a deterministic function of
algorithm, private key and hash producing a non-empty byte list. -/
def model_signature (algo : sign_algo_t) (private_key hash : List Nat) : List Nat :=
  sign_algo_code algo :: (private_key ++ hash)

/-- Modelled from the spec: derivation of the public key paired with a
private key, kept invertible so that validation is decidable. -/
def model_public_key (private_key : List Nat) : List Nat :=
  0 :: private_key

/-- Modelled from the spec: the reference verifier accepting a signature
over a hash with the paired public key. -/
def model_verify (algo : sign_algo_t) (public_key hash sig : List Nat) : Bool :=
  sig == sign_algo_code algo :: (public_key.drop 1 ++ hash)

/-- Modelled from the spec: the maximum signature size for a chosen
algorithm and key size, against which the controller allocates the output
buffer. -/
def max_signature_size_for (_algo : sign_algo_t) (key_size : Nat) : Nat :=
  key_size + HASH_DIGEST_SIZE + 1

/-- Writes the signature bytes at the start of a caller buffer, keeping
the bytes past the written length. -/
def write_buffer (buf sig : List Nat) : List Nat :=
  sig ++ buf.drop sig.length

/-- Modelled from the spec: sv_interface_setup, whose implementation is
absent from the sources.  It initializes the plugin members for a fresh
session and reports SV_OK. -/
def sv_interface_setup (_s : ProviderState) : SignedVideoReturnCode × ProviderState :=
  (.SV_OK, { configured := true, request := none })

/-- Modelled from the spec: sv_interface_teardown, whose implementation is
absent from the sources.  It releases all provider state, cancelling any
request still in flight. -/
def sv_interface_teardown (_s : ProviderState) : ProviderState :=
  initial_state

/-- Modelled from the spec: sv_interface_sign_hash, whose implementation
is absent from the sources.  It validates the record (digest length per
algorithm, supported algorithm, key material), and on acceptance resets
the stale signature_size and stores the request, whose completion becomes
visible after the given backend latency.  On failure the record and the
provider state are left untouched. -/
def sv_interface_sign_hash (signature_info : signature_info_t) (latency : Nat)
    (s : ProviderState) :
    SignedVideoReturnCode × signature_info_t × ProviderState :=
  if signature_info.hash_size ≠ expected_digest_size signature_info.algo then
    (.SV_INVALID_PARAMETER, signature_info, s)
  else if signature_info.algo = .SIGN_ALGO_NUM then
    (.SV_NOT_SUPPORTED, signature_info, s)
  else if signature_info.private_key_size = 0 then
    (.SV_KEY_ERROR, signature_info, s)
  else
    (.SV_OK, { signature_info with signature_size := 0 },
      { s with request := some (latency,
          model_signature signature_info.algo signature_info.private_key
            signature_info.hash) })

/-- Modelled from the spec: sv_interface_get_signature, whose
implementation is absent from the sources.  The non-blocking poll: with no
completed signature available it reports false and leaves the caller
buffer alone; when the outstanding request has completed it copies the
signature into the caller buffer, clears the completion flag and reports
true. -/
def sv_interface_get_signature (signature : List Nat) (s : ProviderState) :
    Bool × List Nat × ProviderState :=
  match s.request with
  | none => (false, signature, s)
  | some (0, sig) =>
      (true, write_buffer signature sig, { s with request := none })
  | some (n + 1, sig) =>
      (false, signature, { s with request := some (n, sig) })

/-- A polling loop of a fixed number of calls, collecting every boolean
the poll returned together with the final buffer and state. -/
def pollTrace : Nat → List Nat → ProviderState → List Bool × List Nat × ProviderState
  | 0, buf, s => ([], buf, s)
  | k + 1, buf, s =>
      let r := sv_interface_get_signature buf s
      let t := pollTrace k r.2.1 r.2.2
      (r.1 :: t.1, t.2)

/-- Polling until the poll reports true, with fuel; returns the buffer and
state at the reporting call, or none if the fuel ran out first. -/
def pollUntilTrue : Nat → List Nat → ProviderState → Option (List Nat × ProviderState)
  | 0, _, _ => none
  | fuel + 1, buf, s =>
      let r := sv_interface_get_signature buf s
      if r.1 then some (r.2.1, r.2.2) else pollUntilTrue fuel r.2.1 r.2.2

/-- Parameter types occurring in the entry-point declarations of
signed_video_interfaces.h, plus the session-handle type that a
multi-session design would use. -/
inductive CParamType where
  | uint8_ptr
  | signature_info_ptr
  | size_t
  | session_handle_ptr
deriving DecidableEq, Repr

/-- Parameter list of sv_interface_sign_hash in the header. -/
def sv_interface_sign_hash_params : List CParamType := [.signature_info_ptr]

/-- Parameter list of sv_interface_get_signature in the header: the output
buffer pointer only. -/
def sv_interface_get_signature_params : List CParamType := [.uint8_ptr]

/-- Parameter list of sv_interface_setup in the header. -/
def sv_interface_setup_params : List CParamType := []

/-- Parameter list of sv_interface_teardown in the header. -/
def sv_interface_teardown_params : List CParamType := []

/-! Helper lemmas about the polling loop. -/

theorem pollTrace_none (k : Nat) (buf : List Nat) (s : ProviderState)
    (h : s.request = none) :
    pollTrace k buf s = (List.replicate k false, buf, s) := by
  induction k with
  | zero => simp [pollTrace]
  | succ k ih => simp [pollTrace, sv_interface_get_signature, h, ih, List.replicate_succ]

theorem pollTrace_deliver (n : Nat) (sig : List Nat) :
    ∀ (buf : List Nat) (s : ProviderState), s.request = some (n, sig) →
    pollTrace (n + 1) buf s =
      (List.replicate n false ++ [true], write_buffer buf sig,
        { s with request := none }) := by
  induction n with
  | zero =>
      intro buf s h
      simp [pollTrace, sv_interface_get_signature, h]
  | succ n ih =>
      intro buf s h
      have step : sv_interface_get_signature buf s =
          (false, buf, { s with request := some (n, sig) }) := by
        simp [sv_interface_get_signature, h]
      have tail := ih buf { s with request := some (n, sig) } rfl
      have expand : pollTrace (n + 1 + 1) buf s =
          ((sv_interface_get_signature buf s).1 ::
             (pollTrace (n + 1) (sv_interface_get_signature buf s).2.1
               (sv_interface_get_signature buf s).2.2).1,
           (pollTrace (n + 1) (sv_interface_get_signature buf s).2.1
             (sv_interface_get_signature buf s).2.2).2) := rfl
      rw [expand, step]
      simp [tail, List.replicate_succ]

theorem pollTrace_add (a b : Nat) :
    ∀ (buf : List Nat) (s : ProviderState),
    pollTrace (a + b) buf s =
      ((pollTrace a buf s).1 ++
         (pollTrace b (pollTrace a buf s).2.1 (pollTrace a buf s).2.2).1,
       (pollTrace b (pollTrace a buf s).2.1 (pollTrace a buf s).2.2).2) := by
  induction a with
  | zero => intro buf s; simp [pollTrace]
  | succ a ih =>
      intro buf s
      have e : a + 1 + b = (a + b) + 1 := by omega
      rw [e]
      simp only [pollTrace]
      rw [ih]
      simp

theorem pollUntilTrue_deliver (n : Nat) (sig : List Nat) :
    ∀ (buf : List Nat) (s : ProviderState), s.request = some (n, sig) →
    pollUntilTrue (n + 1) buf s =
      some (write_buffer buf sig, { s with request := none }) := by
  induction n with
  | zero =>
      intro buf s h
      simp [pollUntilTrue, sv_interface_get_signature, h]
  | succ n ih =>
      intro buf s h
      have step : sv_interface_get_signature buf s =
          (false, buf, { s with request := some (n, sig) }) := by
        simp [sv_interface_get_signature, h]
      have tail := ih buf { s with request := some (n, sig) } rfl
      have expand : pollUntilTrue (n + 1 + 1) buf s =
          (if (sv_interface_get_signature buf s).1 = true then
            some ((sv_interface_get_signature buf s).2.1,
              (sv_interface_get_signature buf s).2.2)
          else
            pollUntilTrue (n + 1) (sv_interface_get_signature buf s).2.1
              (sv_interface_get_signature buf s).2.2) := rfl
      rw [expand, step]
      simp [tail]

/-! Helper lemmas about request submission. -/

theorem sign_hash_accepts (info : signature_info_t) (latency : Nat)
    (s : ProviderState)
    (hh : info.hash_size = expected_digest_size info.algo)
    (ha : info.algo ≠ .SIGN_ALGO_NUM)
    (hk : info.private_key_size ≠ 0) :
    sv_interface_sign_hash info latency s =
      (.SV_OK, { info with signature_size := 0 },
        { s with request := some (latency,
            model_signature info.algo info.private_key info.hash) }) := by
  simp [sv_interface_sign_hash, hh, ha, hk]

theorem sign_hash_ok_inv (info : signature_info_t) (latency : Nat)
    (s : ProviderState)
    (hok : (sv_interface_sign_hash info latency s).1 = .SV_OK) :
    (sv_interface_sign_hash info latency s).2.2 =
      { s with request := some (latency,
          model_signature info.algo info.private_key info.hash) } := by
  by_cases h1 : info.hash_size = expected_digest_size info.algo
  · by_cases h2 : info.algo = .SIGN_ALGO_NUM
    · simp [sv_interface_sign_hash, h1, h2] at hok
    · by_cases h3 : info.private_key_size = 0
      · simp [sv_interface_sign_hash, h1, h2, h3] at hok
      · simp [sign_hash_accepts info latency s h1 h2 h3]
  · simp [sv_interface_sign_hash, h1] at hok

theorem sign_hash_fail_inv (info : signature_info_t) (latency : Nat)
    (s : ProviderState)
    (hfail : (sv_interface_sign_hash info latency s).1 ≠ .SV_OK) :
    (sv_interface_sign_hash info latency s).2.2 = s := by
  by_cases h1 : info.hash_size = expected_digest_size info.algo
  · by_cases h2 : info.algo = .SIGN_ALGO_NUM
    · simp [sv_interface_sign_hash, h1, h2]
    · by_cases h3 : info.private_key_size = 0
      · simp [sv_interface_sign_hash, h1, h2, h3]
      · exact absurd (by simp [sign_hash_accepts info latency s h1 h2 h3]) hfail
  · simp [sv_interface_sign_hash, h1]

/-! Concrete fixtures used by the witnesses. -/

/-- A well-formed record: 32-byte hash, ECDSA, a paired key, ample output
capacity. -/
def test_info : signature_info_t :=
  { hash := List.replicate 32 0
    hash_size := 32
    algo := .SIGN_ALGO_ECDSA
    private_key := [1, 2]
    private_key_size := 2
    public_key := 0 :: [1, 2]
    public_key_size := 3
    signature := []
    signature_size := 0
    max_signature_size := 64 }

/-- The well-formed record with a wrong hash_size. -/
def bad_info : signature_info_t :=
  { test_info with hash_size := 31 }

/-- A set-up provider with no outstanding request. -/
def test_state : ProviderState :=
  { configured := true, request := none }

/-- A provider holding a completed, undelivered two-byte signature. -/
def done_state : ProviderState :=
  { configured := true, request := some (0, [9, 9]) }

/-- A caller output buffer of 64 bytes. -/
def test_buf : List Nat := List.replicate 64 7

/-! The claims. -/

/-- Claim C1: for every session whose signing request was accepted, the
poll reports false on each of the latency calls before the request first
completes, reports true exactly once, copying the completed signature into
the output buffer at that call, and reports false on every subsequent call
with the buffer written no further. -/
theorem C1_poll_exactly_once (info : signature_info_t) (latency m : Nat)
    (buf : List Nat) (s : ProviderState)
    (hok : (sv_interface_sign_hash info latency s).1 = .SV_OK) :
    (pollTrace (latency + 1 + m) buf
        (sv_interface_sign_hash info latency s).2.2).1 =
      List.replicate latency false ++ true :: List.replicate m false ∧
    (pollTrace (latency + 1 + m) buf
        (sv_interface_sign_hash info latency s).2.2).2.1 =
      write_buffer buf (model_signature info.algo info.private_key info.hash) := by
  rw [sign_hash_ok_inv info latency s hok]
  have h1 := pollTrace_deliver latency
    (model_signature info.algo info.private_key info.hash) buf
    { s with request := some (latency,
        model_signature info.algo info.private_key info.hash) } rfl
  rw [pollTrace_add (latency + 1) m, h1]
  constructor
  · simp [pollTrace_none]
  · simp [pollTrace_none]

/-- Witness for C1 at a concrete record, latency 1 and two trailing
polls. -/
theorem C1_witness :
    (pollTrace (1 + 1 + 2) test_buf
        (sv_interface_sign_hash test_info 1 test_state).2.2).1 =
      List.replicate 1 false ++ true :: List.replicate 2 false ∧
    (pollTrace (1 + 1 + 2) test_buf
        (sv_interface_sign_hash test_info 1 test_state).2.2).2.1 =
      write_buffer test_buf
        (model_signature test_info.algo test_info.private_key test_info.hash) :=
  C1_poll_exactly_once test_info 1 2 test_buf test_state (by decide)

/-- Claim C2: for every record with correct hash size, supported
algorithm, paired key sizes and a buffer allocation sized by the maximum
signature size, submission succeeds and polling until true delivers a
signature whose size is strictly positive and at most
max_signature_size. -/
theorem C2_signature_size_bounds (info : signature_info_t) (latency : Nat)
    (buf : List Nat) (s : ProviderState)
    (hh : info.hash_size = expected_digest_size info.algo)
    (ha : info.algo ≠ .SIGN_ALGO_NUM)
    (hk : info.private_key_size ≠ 0)
    (hkl : info.private_key.length = info.private_key_size)
    (hhl : info.hash.length = info.hash_size)
    (hmax : max_signature_size_for info.algo info.private_key_size ≤
      info.max_signature_size) :
    (sv_interface_sign_hash info latency s).1 = .SV_OK ∧
    ∃ sig : List Nat,
      pollUntilTrue (latency + 1) buf
          (sv_interface_sign_hash info latency s).2.2 =
        some (write_buffer buf sig, { s with request := none }) ∧
      0 < sig.length ∧ sig.length ≤ info.max_signature_size := by
  have hacc := sign_hash_accepts info latency s hh ha hk
  have hlen : (model_signature info.algo info.private_key info.hash).length =
      info.private_key_size + HASH_DIGEST_SIZE + 1 := by
    simp [model_signature, hkl, hhl, hh, expected_digest_size]
  refine ⟨by rw [hacc], model_signature info.algo info.private_key info.hash,
    ?_, ?_, ?_⟩
  · rw [hacc]
    exact pollUntilTrue_deliver latency _ buf _ rfl
  · rw [hlen]; omega
  · rw [hlen]
    have := hmax
    unfold max_signature_size_for at this
    omega

/-- Witness for C2 at a concrete record and latency 0. -/
theorem C2_witness :
    (sv_interface_sign_hash test_info 0 test_state).1 = .SV_OK ∧
    ∃ sig : List Nat,
      pollUntilTrue (0 + 1) test_buf
          (sv_interface_sign_hash test_info 0 test_state).2.2 =
        some (write_buffer test_buf sig, { test_state with request := none }) ∧
      0 < sig.length ∧ sig.length ≤ test_info.max_signature_size :=
  C2_signature_size_bounds test_info 0 test_buf test_state (by decide)
    (by decide) (by decide) (by decide) (by decide) (by decide)

/-- Claim C3: whenever hash_size differs from the digest length expected
by the algorithm, submission reports the configuration error
SV_INVALID_PARAMETER and both the record and the provider state are left
exactly as they were: no request is created, so no truncated hash is ever
signed, and the total function cannot crash. -/
theorem C3_hash_size_mismatch (info : signature_info_t) (latency : Nat)
    (s : ProviderState)
    (h : info.hash_size ≠ expected_digest_size info.algo) :
    sv_interface_sign_hash info latency s = (.SV_INVALID_PARAMETER, info, s) := by
  simp [sv_interface_sign_hash, h]

/-- Witness for C3 at a record whose hash_size is 31 instead of 32. -/
theorem C3_witness :
    sv_interface_sign_hash bad_info 0 test_state =
      (.SV_INVALID_PARAMETER, bad_info, test_state) :=
  C3_hash_size_mismatch bad_info 0 test_state (by decide)

/-- Claim C4: a poll made while no signing request is outstanding reports
false and returns every byte of the caller buffer, and the provider state,
unchanged. -/
theorem C4_idle_poll_noop (buf : List Nat) (s : ProviderState)
    (h : s.request = none) :
    sv_interface_get_signature buf s = (false, buf, s) := by
  simp [sv_interface_get_signature, h]

/-- Witness for C4 on an idle set-up provider. -/
theorem C4_witness :
    sv_interface_get_signature test_buf test_state =
      (false, test_buf, test_state) :=
  C4_idle_poll_noop test_buf test_state (by decide)

/-- Claim C5: teardown followed by setup yields a provider state identical
to a first-time setup, and one fixed record signed in two such independent
sessions delivers the same signature in both, which the reference verifier
accepts with the paired public key both times. -/
theorem C5_no_residual_state (s : ProviderState) (info : signature_info_t)
    (l1 l2 : Nat) (buf1 buf2 : List Nat)
    (hh : info.hash_size = expected_digest_size info.algo)
    (ha : info.algo ≠ .SIGN_ALGO_NUM)
    (hk : info.private_key_size ≠ 0)
    (hpub : info.public_key = model_public_key info.private_key) :
    sv_interface_setup (sv_interface_teardown s) =
      sv_interface_setup initial_state ∧
    ∃ sig : List Nat,
      pollUntilTrue (l1 + 1) buf1
          (sv_interface_sign_hash info l1
            (sv_interface_setup initial_state).2).2.2 =
        some (write_buffer buf1 sig, { configured := true, request := none }) ∧
      pollUntilTrue (l2 + 1) buf2
          (sv_interface_sign_hash info l2
            (sv_interface_setup (sv_interface_teardown s)).2).2.2 =
        some (write_buffer buf2 sig, { configured := true, request := none }) ∧
      model_verify info.algo info.public_key info.hash sig = true := by
  refine ⟨rfl, model_signature info.algo info.private_key info.hash, ?_, ?_, ?_⟩
  · rw [show (sv_interface_setup initial_state).2 =
        { configured := true, request := none } from rfl,
      sign_hash_accepts info l1 { configured := true, request := none } hh ha hk]
    exact pollUntilTrue_deliver l1 _ buf1 _ rfl
  · rw [show (sv_interface_setup (sv_interface_teardown s)).2 =
        { configured := true, request := none } from rfl,
      sign_hash_accepts info l2 { configured := true, request := none } hh ha hk]
    exact pollUntilTrue_deliver l2 _ buf2 _ rfl
  · simp [model_verify, model_signature, hpub, model_public_key]

/-- Witness for C5 with latencies 0 and 1 on the concrete record. -/
theorem C5_witness :
    sv_interface_setup (sv_interface_teardown test_state) =
      sv_interface_setup initial_state ∧
    ∃ sig : List Nat,
      pollUntilTrue (0 + 1) test_buf
          (sv_interface_sign_hash test_info 0
            (sv_interface_setup initial_state).2).2.2 =
        some (write_buffer test_buf sig,
          { configured := true, request := none }) ∧
      pollUntilTrue (1 + 1) test_buf
          (sv_interface_sign_hash test_info 1
            (sv_interface_setup (sv_interface_teardown test_state)).2).2.2 =
        some (write_buffer test_buf sig,
          { configured := true, request := none }) ∧
      model_verify test_info.algo test_info.public_key test_info.hash sig = true :=
  C5_no_residual_state test_state test_info 0 1 test_buf test_buf (by decide)
    (by decide) (by decide) (by decide)

/-- Claim C6: signing returns the record with its hash, private_key and
public_key buffers and their sizes untouched; the poll does not even
receive the record, its parameter list holding only the output buffer
pointer, so it cannot write, free or reallocate them. -/
theorem C6_buffers_read_only (info : signature_info_t) (latency : Nat)
    (s : ProviderState) :
    ((sv_interface_sign_hash info latency s).2.1).hash = info.hash ∧
    ((sv_interface_sign_hash info latency s).2.1).hash_size = info.hash_size ∧
    ((sv_interface_sign_hash info latency s).2.1).private_key =
      info.private_key ∧
    ((sv_interface_sign_hash info latency s).2.1).private_key_size =
      info.private_key_size ∧
    ((sv_interface_sign_hash info latency s).2.1).public_key =
      info.public_key ∧
    ((sv_interface_sign_hash info latency s).2.1).public_key_size =
      info.public_key_size ∧
    CParamType.signature_info_ptr ∉ sv_interface_get_signature_params := by
  unfold sv_interface_sign_hash
  split_ifs <;> simp [sv_interface_get_signature_params]

/-- Claim C7: a failed request is observable only through the submission
return code: a non-OK submission leaves the provider state exactly as it
was, and with no outstanding completion every poll of a trace of any
length reports false, so the poll never signals failure, only the absence
of a completed signature. -/
theorem C7_no_async_failure_channel (info : signature_info_t)
    (latency k : Nat) (buf : List Nat) (s : ProviderState)
    (hfail : (sv_interface_sign_hash info latency s).1 ≠ .SV_OK)
    (hidle : s.request = none) :
    (sv_interface_sign_hash info latency s).2.2 = s ∧
    (pollTrace k buf (sv_interface_sign_hash info latency s).2.2).1 =
      List.replicate k false := by
  have h := sign_hash_fail_inv info latency s hfail
  exact ⟨h, by rw [h, pollTrace_none k buf s hidle]⟩

/-- Witness for C7 on the record with mismatched hash_size and a trace of
three polls. -/
theorem C7_witness :
    (sv_interface_sign_hash bad_info 0 test_state).2.2 = test_state ∧
    (pollTrace 3 test_buf (sv_interface_sign_hash bad_info 0 test_state).2.2).1 =
      List.replicate 3 false :=
  C7_no_async_failure_channel bad_info 0 3 test_buf test_state (by decide)
    (by decide)

/-- Claim C8 as stated is false on the header: the declared parameter list
of sv_interface_get_signature carries no size_t capacity parameter, only
the output buffer pointer. -/
theorem C8_counterexample :
    CParamType.size_t ∉ sv_interface_get_signature_params := by decide

/-- Claim C8 amended: the poll receives only the output buffer pointer and
no explicit capacity parameter, the caller being assumed to have allocated
enough memory; on every buffer at least as long as any pending signature
the call preserves the buffer length, writing only within the caller
allocation. -/
theorem C8_amended_write_within (buf : List Nat) (s : ProviderState)
    (hcap : ∀ n sig, s.request = some (n, sig) → sig.length ≤ buf.length) :
    sv_interface_get_signature_params = [CParamType.uint8_ptr] ∧
    ((sv_interface_get_signature buf s).2.1).length = buf.length := by
  refine ⟨rfl, ?_⟩
  cases hreq : s.request with
  | none => simp [sv_interface_get_signature, hreq]
  | some p =>
      obtain ⟨n, sig⟩ := p
      cases n with
      | zero =>
          have hle := hcap 0 sig hreq
          simp [sv_interface_get_signature, hreq, write_buffer]
          omega
      | succ n => simp [sv_interface_get_signature, hreq]

/-- Witness for C8 amended: delivering a two-byte signature into the
64-byte buffer keeps the buffer at 64 bytes. -/
theorem C8_amended_witness :
    sv_interface_get_signature_params = [CParamType.uint8_ptr] ∧
    ((sv_interface_get_signature test_buf done_state).2.1).length =
      test_buf.length :=
  C8_amended_write_within test_buf done_state (by
    intro n sig h
    have h0 : some ((0 : Nat), ([9, 9] : List Nat)) = some (n, sig) := h
    injection h0 with h1
    injection h1 with hn hs
    subst hs
    decide)

/-- Claim C9: none of the four entry points takes a session or provider
handle, so all of them act on the one process-global provider state, and
what the poll reports depends only on that state, never on which buffer
the caller passes. -/
theorem C9_implicit_global_state (buf buf2 : List Nat) (s : ProviderState) :
    CParamType.session_handle_ptr ∉ sv_interface_sign_hash_params ∧
    CParamType.session_handle_ptr ∉ sv_interface_get_signature_params ∧
    CParamType.session_handle_ptr ∉ sv_interface_setup_params ∧
    CParamType.session_handle_ptr ∉ sv_interface_teardown_params ∧
    (sv_interface_get_signature buf s).1 = (sv_interface_get_signature buf2 s).1 := by
  refine ⟨by decide, by decide, by decide, by decide, ?_⟩
  cases hreq : s.request with
  | none => simp [sv_interface_get_signature, hreq]
  | some p =>
      obtain ⟨n, sig⟩ := p
      cases n <;> simp [sv_interface_get_signature, hreq]

/-- Claim C10: the algorithm selector is the closed enumeration with
SIGN_ALGO_RSA = 0 and SIGN_ALGO_ECDSA = 1, SIGN_ALGO_NUM being the count
2, and the expected digest size is the single constant HASH_DIGEST_SIZE
whatever the algorithm. -/
theorem C10_closed_enum_fixed_digest :
    sign_algo_code .SIGN_ALGO_RSA = 0 ∧
    sign_algo_code .SIGN_ALGO_ECDSA = 1 ∧
    sign_algo_code .SIGN_ALGO_NUM = 2 ∧
    (∀ a : sign_algo_t,
      a = .SIGN_ALGO_RSA ∨ a = .SIGN_ALGO_ECDSA ∨ a = .SIGN_ALGO_NUM) ∧
    (∀ a : sign_algo_t, expected_digest_size a = HASH_DIGEST_SIZE) := by
  refine ⟨rfl, rfl, rfl, ?_, ?_⟩
  · intro a; cases a <;> simp
  · intro a; rfl

end SignedVideo
